import Mathlib

/-
Verification development for mmengine/model/wrappers/seperate_distributed.py,
class MMSeparateDistributedDataParallel.

The embedding models a torch module as a flat record: the list of the
requires_grad flags of its parameters, a device flag, and a training flag.
A child of the wrapped composite module is, after construction, either the
original module (raw) or an MMDistributedDataParallel adapter built around
it (ddp).  The constructor loop, the no_sync contextmanager generator, the
train method and the three step methods are translated directly from the
source file.
-/

set_option autoImplicit false

namespace SeparateDistributed

variable {A D O R P : Type}

/-- A child torch module: `params` lists the requires_grad flag of every
parameter in the child subtree (what `child.parameters()` yields), `onCuda`
records device placement, `training` is the nn.Module training flag. -/
structure Child where
  params : List Bool
  onCuda : Bool
  training : Bool
  deriving DecidableEq, Repr

/-- Translation of `_module.cuda()`: moves the module to the compute device;
parameters and their requires_grad flags are unchanged. -/
def Child.cuda (c : Child) : Child :=
  { c with onCuda := true }

/-- The state of one slot of `module._modules` after construction: either the
raw child module, or an `MMDistributedDataParallel` adapter holding its own
training flag, the inner module, and the configuration argument `A` that the
outer constructor forwarded (`*args, **kwargs`, opaque to this wrapper). -/
inductive Slot (A : Type) where
  | raw (c : Child)
  | ddp (training : Bool) (c : Child) (a : A)
  deriving DecidableEq

/-- What `slot.parameters()` yields: the adapter is transparent for
parameters, so both variants expose the inner module parameters. -/
def Slot.paramFlags : Slot A → List Bool
  | .raw c => c.params
  | .ddp _ c _ => c.params

/-- Whether the object stored in the slot exposes a `no_sync` contextmanager:
`DistributedDataParallel` does, a plain `nn.Module` does not (attribute
lookup raises `AttributeError`). -/
def Slot.hasNoSync : Slot A → Bool
  | .raw _ => false
  | .ddp _ _ _ => true

/-- `all(not p.requires_grad for p in module.parameters())` as evaluated in
the middle of the constructor loop: `own` are the parameters held directly by
the top-level composite module, `done` the already-replaced child slots (in
mapping order), `todo` the children not yet visited. -/
def allParamsFrozen (own : List Bool)
    (done : List (String × Slot A)) (todo : List (String × Child)) : Bool :=
  (own ++ (done.map fun x => x.2.paramFlags).flatten
       ++ (todo.map fun x => x.2.params).flatten).all fun rg => !rg

/-- The constructor loop of `MMSeparateDistributedDataParallel.__init__`,
iterating over `module._modules.items()` and replacing each value in place:
a child with no parameters is moved to the device; otherwise, if every
parameter of the (whole, partially rewritten) top-level module has
requires_grad disabled the child is moved to the device; otherwise it is
wrapped as `MMDistributedDataParallel(module=child.cuda(), *args, **kwargs)`. -/
def wrapLoop (a : A) (own : List Bool) (done : List (String × Slot A)) :
    List (String × Child) → List (String × Slot A)
  | [] => done
  | (name, c) :: rest =>
    let s : Slot A :=
      if c.params.isEmpty then Slot.raw c.cuda
      else if allParamsFrozen own done ((name, c) :: rest) then Slot.raw c.cuda
      else Slot.ddp true c.cuda a
    wrapLoop a own (done ++ [(name, s)]) rest

/-- The whole replacement pass performed by the constructor on the child
mapping of the composite module. -/
def wrapChildren (a : A) (own : List Bool)
    (cs : List (String × Child)) : List (String × Slot A) :=
  wrapLoop a own [] cs

/-- `all(not p.requires_grad for p in module.parameters())` evaluated on the
composite module as given to the constructor. -/
def moduleAllFrozen (own : List Bool) (cs : List (String × Child)) : Bool :=
  (own ++ (cs.map fun x => x.2.params).flatten).all fun rg => !rg

/-- The three-way classification applied to one child, with the frozen test
already decided. -/
def decideSlot (a : A) (frozen : Bool) (c : Child) : Slot A :=
  if c.params.isEmpty then Slot.raw c.cuda
  else if frozen then Slot.raw c.cuda
  else Slot.ddp true c.cuda a

theorem decideSlot_paramFlags (a : A) (frozen : Bool) (c : Child) :
    (decideSlot a frozen c).paramFlags = c.params := by
  unfold decideSlot
  split <;> [rfl; split <;> rfl]

/-- Replacing a child by its classified slot does not change the flag
`all(not p.requires_grad for p in module.parameters())`: moving to the
device and wrapping in the adapter both preserve the parameter list. -/
theorem allParamsFrozen_step (a : A) (own : List Bool)
    (done : List (String × Slot A)) (name : String) (c : Child)
    (rest : List (String × Child)) (frozen : Bool) :
    allParamsFrozen own (done ++ [(name, decideSlot a frozen c)]) rest
      = allParamsFrozen own done ((name, c) :: rest) := by
  simp [allParamsFrozen, decideSlot_paramFlags, List.all_append, Bool.and_assoc]

/-- The classification inside `wrapLoop` is exactly `decideSlot` at the flag
evaluated on the current state. -/
theorem wrapLoop_cons (a : A) (own : List Bool) (done : List (String × Slot A))
    (name : String) (c : Child) (rest : List (String × Child)) :
    wrapLoop a own done ((name, c) :: rest)
      = wrapLoop a own
          (done ++ [(name,
            decideSlot a (allParamsFrozen own done ((name, c) :: rest)) c)])
          rest := by
  simp only [wrapLoop, decideSlot]

/-- The constructor loop is equivalent to mapping the three-way
classification over the children, with the frozen test evaluated once on the
initial state: the test value is invariant across the loop. -/
theorem wrapLoop_eq_map (a : A) (own : List Bool) :
    ∀ (todo : List (String × Child)) (done : List (String × Slot A)),
      wrapLoop a own done todo
        = done ++ todo.map fun nc =>
            (nc.1, decideSlot a (allParamsFrozen own done todo) nc.2)
  | [], done => by simp [wrapLoop]
  | (name, c) :: rest, done => by
    rw [wrapLoop_cons,
      wrapLoop_eq_map a own rest
        (done ++ [(name, decideSlot a (allParamsFrozen own done ((name, c) :: rest)) c)]),
      allParamsFrozen_step]
    simp

theorem wrapChildren_eq_map (a : A) (own : List Bool)
    (cs : List (String × Child)) :
    wrapChildren a own cs
      = cs.map fun nc => (nc.1, decideSlot a (moduleAllFrozen own cs) nc.2) := by
  rw [wrapChildren, wrapLoop_eq_map]
  simp [allParamsFrozen, moduleAllFrozen]

/-! ### The no_sync contextmanager

The source method is a generator decorated with `contextmanager`:

  with ExitStack() as stack:
      for sub_ddp_model in self.module._modules.values():
          stack.enter_context(sub_ddp_model.no_sync())
          yield

The `yield` sits inside the loop, so the generator yields once per child.
We model one advance of the generator (run until the next yield, normal
return, or exception) and the contextmanager protocol driving it: `__enter__`
advances once, and on a normally completed caller block `__exit__` advances
once more, expecting the generator to stop. -/

/-- An observable event of the composed scope: acquiring or releasing the
`no_sync` sub-scope of the named child. -/
inductive Ev where
  | entered (name : String)
  | exited (name : String)
  deriving DecidableEq, Repr

/-- `ExitStack` unwinding: the entered sub-scopes (most recent first) are
released in reverse order of acquisition. -/
def unwindStack (st : List String) : List Ev :=
  st.map Ev.exited

/-- Result of advancing the generator once: it suspends at a `yield` (with
the children still to visit and the stack of entered sub-scopes), returns
(`StopIteration`), or lets an exception escape (the `AttributeError` from
looking up `no_sync` on a module that has none); in the latter two cases the
`ExitStack` has already unwound. -/
inductive GenRes (A : Type) where
  | yielded (rest : List (String × Slot A)) (stack : List String)
  | stopped
  | raised

/-- One advance of the generator body, from a suspension point with `stack`
entered and `todo` the children not yet visited.  Each loop iteration enters
the no_sync sub-scope of one child and then yields; when the loop is over
the `with ExitStack()` block closes, releasing the entered sub-scopes in
reverse order. -/
def advanceGen (stack : List String) :
    List (String × Slot A) → List Ev × GenRes A
  | [] => (unwindStack stack, GenRes.stopped)
  | (n, s) :: rest =>
    if s.hasNoSync then ([Ev.entered n], GenRes.yielded rest (n :: stack))
    else (unwindStack stack, GenRes.raised)

/-- Outcome of one complete use `with wrapper.no_sync(): block` where the
caller block completes normally. -/
inductive UseResult where
  /-- Entry and exit both succeeded. -/
  | completed
  /-- The generator returned without yielding: `__enter__` raises
  `RuntimeError` (generator did not yield). -/
  | enterNoYield
  /-- The generator body raised while starting: the exception escapes from
  `__enter__`. -/
  | enterRaised
  /-- On exit the generator yielded again: `__exit__` raises `RuntimeError`
  (generator did not stop), leaving the generator suspended. -/
  | exitYieldAgain
  /-- On exit the generator body raised: the exception escapes from
  `__exit__`. -/
  | exitRaised
  deriving DecidableEq, Repr

/-- One complete use of the contextmanager with a normally completing caller
block: `__enter__` advances the generator from the start, then `__exit__`
advances it again; the trace of sub-scope events observed up to the first
failure is returned alongside the outcome. -/
def noSyncUse (children : List (String × Slot A)) : List Ev × UseResult :=
  match advanceGen [] children with
  | (evs, GenRes.stopped) => (evs, UseResult.enterNoYield)
  | (evs, GenRes.raised) => (evs, UseResult.enterRaised)
  | (evs, GenRes.yielded rest st) =>
    match advanceGen st rest with
    | (evs2, GenRes.stopped) => (evs ++ evs2, UseResult.completed)
    | (evs2, GenRes.raised) => (evs ++ evs2, UseResult.exitRaised)
    | (evs2, GenRes.yielded _ _) => (evs ++ evs2, UseResult.exitYieldAgain)

/-! ### The wrapper class -/

/-- The composite module handed to the constructor, before mutation: its own
directly held parameters, its named children, its training flag, and its
`train_step`, `val_step` and `test_step` methods (opaque user code returning
whatever the model computes). -/
structure NNModule (D O R P : Type) where
  ownParams : List Bool
  children : List (String × Child)
  training : Bool
  train_step : D → O → R
  val_step : D → P
  test_step : D → P

/-- The same composite module after the constructor rewrote its child
mapping in place. -/
structure InnerModule (A D O R P : Type) where
  ownParams : List Bool
  children : List (String × Slot A)
  training : Bool
  train_step : D → O → R
  val_step : D → P
  test_step : D → P

/-- `nn.Module.train(mode)` on one child slot: sets the training flag of the
object stored at the name and, through the usual recursion, of the module
inside the adapter. -/
def Slot.train (mode : Bool) : Slot A → Slot A
  | .raw c => .raw { c with training := mode }
  | .ddp _ c a => .ddp mode { c with training := mode } a

/-- The training flag reported by the object stored at the child name. -/
def Slot.reportsTraining : Slot A → Bool
  | .raw c => c.training
  | .ddp t _ _ => t

/-- The training flag of the user module inside the slot. -/
def Slot.innerTraining : Slot A → Bool
  | .raw c => c.training
  | .ddp _ c _ => c.training

/-- `self.module.train(mode)`: sets the composite module training flag and
recursively the flag of every child. -/
def InnerModule.train (m : InnerModule A D O R P) (mode : Bool) :
    InnerModule A D O R P :=
  { m with training := mode,
           children := m.children.map fun nc => (nc.1, nc.2.train mode) }

/-- The wrapper object: it skips the `DistributedDataParallel` constructor
and only runs `nn.Module.__init__` (which sets `training := true`), then
stores the composite module. -/
structure MMSeparateDistributedDataParallel (A D O R P : Type) where
  module : InnerModule A D O R P
  training : Bool

namespace MMSeparateDistributedDataParallel

/-- `__init__`: store the module and replace each child of
`module._modules` according to the classification loop. -/
def init (m : NNModule D O R P) (a : A) :
    MMSeparateDistributedDataParallel A D O R P :=
  { training := true
    module :=
      { ownParams := m.ownParams
        children := wrapChildren a m.ownParams m.children
        training := m.training
        train_step := m.train_step
        val_step := m.val_step
        test_step := m.test_step } }

/-- `return self.module.train_step(data, optim_wrapper)` -/
def train_step (self : MMSeparateDistributedDataParallel A D O R P)
    (data : D) (optim_wrapper : O) : R :=
  self.module.train_step data optim_wrapper

/-- `return self.module.val_step(data)` -/
def val_step (self : MMSeparateDistributedDataParallel A D O R P)
    (data : D) : P :=
  self.module.val_step data

/-- `return self.module.test_step(data)` -/
def test_step (self : MMSeparateDistributedDataParallel A D O R P)
    (data : D) : P :=
  self.module.test_step data

/-- One complete use of `self.no_sync()` with a normally completing caller
block, over the children of the stored module. -/
def no_sync_use (self : MMSeparateDistributedDataParallel A D O R P) :
    List Ev × UseResult :=
  noSyncUse self.module.children

/-- `self.training = mode; self.module.train(mode); return self` -/
def train (self : MMSeparateDistributedDataParallel A D O R P) (mode : Bool) :
    MMSeparateDistributedDataParallel A D O R P :=
  { self with training := mode, module := self.module.train mode }

end MMSeparateDistributedDataParallel

/-! ### Concrete fixtures -/

/-- A child with one parameter whose gradient tracking is disabled. -/
def frozenChild : Child :=
  { params := [false], onCuda := false, training := true }

/-- A child with one parameter whose gradient tracking is enabled. -/
def trainChild : Child :=
  { params := [true], onCuda := false, training := true }

/-- A child with no parameters at all. -/
def plainChild : Child :=
  { params := [], onCuda := false, training := true }

/-- A GAN-shaped composite module: trainable generator and discriminator and
a parameter-free auxiliary child. -/
def ganModule : NNModule Nat Nat Nat Nat :=
  { ownParams := []
    children := [("gen", trainChild), ("disc", trainChild), ("aux", plainChild)]
    training := true
    train_step := fun _ _ => 0
    val_step := fun _ => 0
    test_step := fun _ => 0 }

/-- A composite module whose only child is frozen, so every parameter of the
whole module has gradient tracking disabled. -/
def frozenModule : NNModule Nat Nat Nat Nat :=
  { ownParams := []
    children := [("enc", frozenChild)]
    training := true
    train_step := fun _ _ => 0
    val_step := fun _ => 0
    test_step := fun _ => 0 }

/-- A composite module with one frozen child next to one trainable child. -/
def mixedModule : NNModule Nat Nat Nat Nat :=
  { ownParams := []
    children := [("f", frozenChild), ("t", trainChild)]
    training := true
    train_step := fun _ _ => 0
    val_step := fun _ => 0
    test_step := fun _ => 0 }

/-- A composite module with exactly two trainable children. -/
def twoDdpModule : NNModule Nat Nat Nat Nat :=
  { ownParams := []
    children := [("gen", trainChild), ("disc", trainChild)]
    training := true
    train_step := fun _ _ => 0
    val_step := fun _ => 0
    test_step := fun _ => 0 }

/-- A composite module whose only child is parameter-free. -/
def auxOnlyModule : NNModule Nat Nat Nat Nat :=
  { ownParams := []
    children := [("aux", plainChild)]
    training := true
    train_step := fun _ _ => 0
    val_step := fun _ => 0
    test_step := fun _ => 0 }

/-- A wrapper state whose module has exactly one child, adapter-wrapped. -/
def singleDdpWrapper : MMSeparateDistributedDataParallel Nat Nat Nat Nat Nat :=
  { training := true
    module :=
      { ownParams := []
        children := [("gen", Slot.ddp true trainChild.cuda 7)]
        training := true
        train_step := fun _ _ => 0
        val_step := fun _ => 0
        test_step := fun _ => 0 } }

/-! ### Claims -/

/-- C1.  The claim says the no_sync scope acquires the no_sync sub-scope of
every child before yielding to the caller and releases all of them, in
reverse order, on exit.  The code puts the `yield` inside the per-child
loop, so with the two adapter-wrapped children of a GAN-shaped module only
the first sub-scope is acquired before the caller gets control, and exiting
the caller block makes the generator yield again, so `__exit__` raises
`RuntimeError` instead of releasing the scopes: the trace of the complete
use holds two acquisitions and no release. -/
theorem no_sync_yield_in_loop_eval :
    (advanceGen []
        (MMSeparateDistributedDataParallel.init twoDdpModule (7 : Nat)).module.children
      = ([Ev.entered "gen"],
          GenRes.yielded [("disc", Slot.ddp true trainChild.cuda 7)] ["gen"]))
    ∧ ((MMSeparateDistributedDataParallel.init twoDdpModule (7 : Nat)).no_sync_use
      = ([Ev.entered "gen", Ev.entered "disc"], UseResult.exitYieldAgain)) :=
  ⟨rfl, rfl⟩

/-- C2.  The claim says a child whose own parameters all have gradient
tracking disabled is left unwrapped.  The code evaluates the frozen test
over `module.parameters()` — the whole top-level module — so a frozen child
sitting next to a trainable sibling is adapter-wrapped: in `mixedModule`
the child `f` has `[false]` as its own requires_grad flags, yet its slot
after construction is a `ddp` adapter. -/
theorem frozen_child_adapter_wrapped_eval :
    ((MMSeparateDistributedDataParallel.init mixedModule (0 : Nat)).module.children[0]?
      = some ("f", Slot.ddp true frozenChild.cuda 0))
    ∧ frozenChild.params.all (fun rg => !rg) = true :=
  ⟨rfl, rfl⟩

/-- C3.  The claim says children that are not adapter-wrapped are skipped by
the no_sync scope and entry does not fail.  The code calls `no_sync()` on
every child unconditionally; a raw module has no such attribute, so entering
the scope on a module whose only child is parameter-free (hence left raw by
construction) raises `AttributeError` out of `__enter__`. -/
theorem raw_child_no_sync_raises_eval :
    (MMSeparateDistributedDataParallel.init auxOnlyModule (7 : Nat)).no_sync_use
      = ([], UseResult.enterRaised) :=
  rfl

/-- C4.  A child that has parameters takes the frozen (unwrapped,
device-placed) branch of construction if and only if every parameter of the
whole top-level module has gradient tracking disabled: the test inspects
`module.parameters()`, not the child itself. -/
theorem frozen_branch_top_level_iff
    (m : NNModule D O R P) (a : A) (i : Nat) (n : String) (c : Child)
    (hc : m.children[i]? = some (n, c)) (hp : c.params ≠ []) :
    ((MMSeparateDistributedDataParallel.init m a).module.children[i]?
        = some (n, Slot.raw c.cuda))
      ↔ moduleAllFrozen m.ownParams m.children = true := by
  have hpe : c.params.isEmpty = false := by
    cases hcp : c.params with
    | nil => exact absurd hcp hp
    | cons x xs => rfl
  have h1 : (MMSeparateDistributedDataParallel.init m a).module.children[i]?
      = some (n, decideSlot a (moduleAllFrozen m.ownParams m.children) c) := by
    simp [MMSeparateDistributedDataParallel.init, wrapChildren_eq_map,
      List.getElem?_map, hc]
  rw [h1]
  constructor
  · intro h
    cases hf : moduleAllFrozen m.ownParams m.children
    · rw [hf] at h
      simp [decideSlot, hpe] at h
    · rfl
  · intro hf
    simp [decideSlot, hpe, hf]

/-- Witness for C4: in `frozenModule` every parameter of the whole module is
frozen, so the child `enc` is stored back unwrapped and moved to the
device. -/
theorem frozen_branch_top_level_iff_witness :
    (MMSeparateDistributedDataParallel.init frozenModule (0 : Nat)).module.children[0]?
      = some ("enc", Slot.raw frozenChild.cuda) :=
  (frozen_branch_top_level_iff frozenModule 0 0 "enc" frozenChild rfl
    (by decide)).mpr (by decide)

/-- C5.  A child with at least one gradient-tracked parameter is replaced by
an `MMDistributedDataParallel` adapter built around the device-placed child
and holding exactly the configuration argument forwarded to the outer
constructor. -/
theorem trainable_child_is_wrapped
    (m : NNModule D O R P) (a : A) (i : Nat) (n : String) (c : Child)
    (hc : m.children[i]? = some (n, c)) (hp : true ∈ c.params) :
    ((MMSeparateDistributedDataParallel.init m a).module.children[i]?
        = some (n, Slot.ddp true c.cuda a))
    ∧ c.cuda.onCuda = true := by
  have hmem : (n, c) ∈ m.children := List.getElem?_mem hc
  have hmem2 : true ∈ (m.children.map fun x => x.2.params).flatten :=
    List.mem_flatten.mpr ⟨c.params, List.mem_map.mpr ⟨(n, c), hmem, rfl⟩, hp⟩
  have hf : moduleAllFrozen m.ownParams m.children = false := by
    cases hfv : moduleAllFrozen m.ownParams m.children
    · rfl
    · have := List.all_eq_true.mp hfv true (List.mem_append.mpr (Or.inr hmem2))
      simp at this
  have hne : c.params ≠ [] := by
    intro h; rw [h] at hp; cases hp
  refine ⟨?_, rfl⟩
  simp [MMSeparateDistributedDataParallel.init, wrapChildren_eq_map,
    List.getElem?_map, hc, decideSlot, hne, hf]

/-- Witness for C5: the generator of the GAN-shaped module is adapter-wrapped
with the forwarded configuration argument. -/
theorem trainable_child_is_wrapped_witness :
    (MMSeparateDistributedDataParallel.init ganModule (7 : Nat)).module.children[0]?
      = some ("gen", Slot.ddp true trainChild.cuda 7) :=
  (trainable_child_is_wrapped ganModule 7 0 "gen" trainChild rfl (by decide)).1

/-- C6.  Construction preserves the child-name mapping of the composite
module exactly: same names, same order, no additions and no removals; only
the stored objects change. -/
theorem child_name_set_preserved (m : NNModule D O R P) (a : A) :
    (MMSeparateDistributedDataParallel.init m a).module.children.map Prod.fst
      = m.children.map Prod.fst := by
  simp [MMSeparateDistributedDataParallel.init, wrapChildren_eq_map]

/-- C7.  A child with no parameters at all is stored back under its name
unwrapped and moved to the compute device. -/
theorem param_free_child_not_wrapped
    (m : NNModule D O R P) (a : A) (i : Nat) (n : String) (c : Child)
    (hc : m.children[i]? = some (n, c)) (hp : c.params = []) :
    ((MMSeparateDistributedDataParallel.init m a).module.children[i]?
        = some (n, Slot.raw c.cuda))
    ∧ c.cuda.onCuda = true := by
  refine ⟨?_, rfl⟩
  simp [MMSeparateDistributedDataParallel.init, wrapChildren_eq_map,
    List.getElem?_map, hc, decideSlot, hp]

/-- Witness for C7: the parameter-free child `aux` of the GAN-shaped module
stays raw and lands on the device. -/
theorem param_free_child_not_wrapped_witness :
    (MMSeparateDistributedDataParallel.init ganModule (7 : Nat)).module.children[2]?
      = some ("aux", Slot.raw plainChild.cuda) :=
  (param_free_child_not_wrapped ganModule 7 2 "aux" plainChild rfl rfl).1

/-- C8.  `train_step`, `val_step` and `test_step` return exactly the value
produced by the same-named method of the stored composite module on the same
input: pure delegation, hence no aggregation, no validation and no change
of keys. -/
theorem step_methods_delegate
    (s : MMSeparateDistributedDataParallel A D O R P)
    (data : D) (optim_wrapper : O) (d2 d3 : D) :
    s.train_step data optim_wrapper = s.module.train_step data optim_wrapper
    ∧ s.val_step d2 = s.module.val_step d2
    ∧ s.test_step d3 = s.module.test_step d3 :=
  ⟨rfl, rfl, rfl⟩

/-- C9.  `train(mode)` sets the wrapper training flag to `mode`, sets the
same mode on the stored composite module and on every child (on the adapter
and on the module inside it for adapter-wrapped children), and returns the
updated wrapper. -/
theorem train_sets_mode
    (s : MMSeparateDistributedDataParallel A D O R P) (mode : Bool) :
    ((s.train mode).training = mode)
    ∧ ((s.train mode).module.training = mode)
    ∧ (∀ x ∈ (s.train mode).module.children,
        x.2.reportsTraining = mode ∧ x.2.innerTraining = mode) := by
  refine ⟨rfl, rfl, ?_⟩
  intro x hx
  simp only [MMSeparateDistributedDataParallel.train, InnerModule.train,
    List.mem_map] at hx
  obtain ⟨⟨n, sl⟩, _, rfl⟩ := hx
  cases sl <;>
    simp [Slot.train, Slot.reportsTraining, Slot.innerTraining]

/-- Witness for C9: after `train false` on the wrapped GAN-shaped module,
the wrapper flag is off and the adapter-wrapped generator reports
training-mode off. -/
theorem train_sets_mode_witness :
    (((MMSeparateDistributedDataParallel.init ganModule (7 : Nat)).train false).training
        = false)
    ∧ Slot.reportsTraining
        (Slot.ddp false ({ params := [true], onCuda := true, training := false })
          (7 : Nat)) = false :=
  ⟨(train_sets_mode (MMSeparateDistributedDataParallel.init ganModule 7) false).1,
   ((train_sets_mode (MMSeparateDistributedDataParallel.init ganModule 7) false).2.2
      ("gen", Slot.ddp false { params := [true], onCuda := true, training := false } 7)
      (by decide)).1⟩

/-- Helper for C10: the complete use succeeds exactly on a singleton child
list whose child exposes no_sync. -/
theorem noSyncUse_completed_iff (cs : List (String × Slot A)) :
    (noSyncUse cs).2 = UseResult.completed
      ↔ ∃ n s, cs = [(n, s)] ∧ s.hasNoSync = true := by
  match cs with
  | [] => simp [noSyncUse, advanceGen]
  | [(n, s)] =>
    cases hs : s.hasNoSync with
    | false => simp [noSyncUse, advanceGen, unwindStack, hs]
    | true =>
      simp [noSyncUse, advanceGen, unwindStack, hs]
      exact ⟨n, s, ⟨rfl, rfl⟩, hs⟩
  | (n1, s1) :: (n2, s2) :: r =>
    cases hs1 : s1.hasNoSync with
    | false => simp [noSyncUse, advanceGen, unwindStack, hs1]
    | true =>
      cases hs2 : s2.hasNoSync with
      | false => simp [noSyncUse, advanceGen, unwindStack, hs1, hs2]
      | true => simp [noSyncUse, advanceGen, unwindStack, hs1, hs2]

/-- C10.  As implemented, a use of `no_sync()` with a normally completing
caller block raises no error exactly when the module has one single child
and that child exposes a no_sync context; with no child the generator never
yields and entry fails, and with two or more no_sync-exposing children the
generator yields again on exit, which fails. -/
theorem no_sync_single_child_iff
    (s : MMSeparateDistributedDataParallel A D O R P) :
    ((s.no_sync_use).2 = UseResult.completed
        ↔ ∃ n sl, s.module.children = [(n, sl)] ∧ sl.hasNoSync = true)
    ∧ (s.module.children = [] → (s.no_sync_use).2 = UseResult.enterNoYield)
    ∧ (∀ x y r, s.module.children = x :: y :: r →
        x.2.hasNoSync = true → y.2.hasNoSync = true →
        (s.no_sync_use).2 = UseResult.exitYieldAgain) := by
  refine ⟨noSyncUse_completed_iff _, ?_, ?_⟩
  · intro h
    simp [MMSeparateDistributedDataParallel.no_sync_use, h, noSyncUse,
      advanceGen, unwindStack]
  · rintro ⟨xn, xs⟩ ⟨yn, ys⟩ r h hx hy
    simp [MMSeparateDistributedDataParallel.no_sync_use, h, noSyncUse,
      advanceGen, unwindStack, hx, hy]

/-- Witness for C10: a wrapper with exactly one adapter-wrapped child
completes a use of the scope. -/
theorem no_sync_single_child_iff_witness :
    (singleDdpWrapper.no_sync_use).2 = UseResult.completed :=
  (no_sync_single_child_iff singleDdpWrapper).1.mpr
    ⟨"gen", Slot.ddp true trainChild.cuda 7, rfl, rfl⟩

end SeparateDistributed
